import Mathlib

/-!
Shallow embedding of the Professor-Rag answer-orchestration pipeline.

Source modules modelled here:
 - src/guardrails/content_filter.py   (ContentGuardrails)
 - src/mcp/web_search_agent.py        (WebSearchAgent relevance validation and formatting)
 - src/llm/groq_client.py             (GroqClient.generate_response error handling)
 - src/rag/enhanced_rag_orchestrator.py (EnhancedRAGOrchestrator.answer_question, refine_response)

Modelling conventions:
 - Python strings are Lean String; character-level processing works on String.data
   (a List Char), since the relevant Python operations (lower, strip, substring,
   regex character classes) are per-character.
 - Python floats (similarity scores, sentiment polarity, confidence) are modelled
   as exact rationals (Rat).
 - External collaborators (the vector store, the DuckDuckGo client, the Groq API
   transport, TextBlob sentiment, the sqlite feedback store) are oracles: fields of
   the Orchestrator structure. The decision logic applied to their outputs is
   translated from the source.
 - Side effects are made observable through an explicit Trace that records, per
   run, the retriever calls, web-search calls and generator calls with their
   arguments.
 - Exceptions raised by a collaborator are modelled with Except; Python code that
   catches them maps the error branch, code that does not catch propagates it.
-/

/-- Verdict dictionary produced by ContentGuardrails.validate_input and
validate_output. Keys that are present only on some branches of the Python code
are Option fields defaulting to none (absent key). -/
structure Verdict where
  is_valid : Bool
  reason : String
  message : String
  severity : String
  warning : Option Bool := none
  math_score : Option Nat := none
  quality_score : Option Nat := none
  has_refusal : Option Bool := none
  has_explanation : Option Bool := none
deriving DecidableEq, Repr

/-- One knowledge-base chunk as returned by VectorStore.search: text, the
metadata source entry (absent metadata key modelled as none), and the
similarity score. -/
structure KbChunk where
  text : String
  metadata_source : Option String
  score : Rat
deriving DecidableEq, Repr

/-- One enriched web result as built by WebSearchAgent.search_math_content. -/
structure WebResult where
  title : String
  url : String
  snippet : String
  content : String
  is_trusted : Bool
deriving DecidableEq, Repr

/-- Return dictionary of WebSearchAgent.search_math_content (the total_found and
source keys are not used by the orchestrator and are omitted). -/
structure WebSearchResult where
  success : Bool
  results : List WebResult
  message : String
deriving DecidableEq, Repr

/-- Checks whether the first list is a prefix of the second, by character. -/
def isPrefixOfChars : List Char → List Char → Bool
  | [], _ => true
  | _ :: _, [] => false
  | a :: as, b :: bs => a == b && isPrefixOfChars as bs

/-- Python substring containment, pat in text, on character lists. -/
def containsChars (pat : List Char) : List Char → Bool
  | [] => pat.isEmpty
  | c :: rest => isPrefixOfChars pat (c :: rest) || containsChars pat rest

/-- Python str.lower, per character (ASCII-faithful). -/
def lower (s : String) : List Char := s.data.map Char.toLower

/-- Characters removed by Python str.strip with no arguments. -/
def isPyWhitespace (c : Char) : Bool :=
  c == ' ' || c == '\t' || c == '\n' || c == '\r' || c == '\x0b' || c == '\x0c'

/-- Python str.strip with no arguments. -/
def pythonStrip (s : List Char) : List Char :=
  ((s.dropWhile isPyWhitespace).reverse.dropWhile isPyWhitespace).reverse

/-- Python min on rationals (returns the first argument on ties). -/
def ratMin (a b : Rat) : Rat := if a ≤ b then a else b

/-- ContentGuardrails.forbidden_keywords (fixed denylist; a Python set, listed
here in source order - only membership is ever used). -/
def forbidden_keywords : List String :=
  ["violence", "weapon", "hate", "explicit", "illegal", "drug",
   "nsfw", "adult", "harmful", "suicide", "bomb", "kill"]

/-- ContentGuardrails.math_keywords (fixed topic vocabulary; a Python set, only
membership counting is ever used). -/
def math_keywords : List String :=
  ["algebra", "calculus", "geometry", "trigonometry", "statistics",
   "probability", "equation", "derivative", "integral", "matrix",
   "vector", "function", "theorem", "proof", "solve", "calculate",
   "graph", "formula", "number", "polynomial", "exponential",
   "logarithm", "differential", "limit", "series", "sequence",
   "angle", "triangle", "circle", "sine", "cosine", "tangent",
   "mean", "median", "variance", "distribution", "regression",
   "topology", "analysis", "linear", "optimization", "pi", "ratio"]

/-- Characters of the regex character class of math symbols in
ContentGuardrails._contains_numbers_or_symbols. -/
def math_symbol_chars : List Char :=
  ['+', '-', '*', '/', '=', '<', '>', '≤', '≥', '≠', '∞', '∑', '∏', '∫', '√', 'π']

/-- Characters of the single-letter-variable alternatives of the regex
in ContentGuardrails._contains_numbers_or_symbols (case-sensitive). -/
def variable_chars : List Char := ['x', 'y', 'z', 'n']

/-- ContentGuardrails._contains_numbers_or_symbols: true when the raw text has a
digit, a math symbol, one of the variable letters, or the substring f( or g(. -/
def contains_numbers_or_symbols (text : String) : Bool :=
  text.data.any (fun c => c.isDigit) ||
  text.data.any (fun c => math_symbol_chars.contains c) ||
  text.data.any (fun c => variable_chars.contains c) ||
  containsChars ['f', '('] text.data ||
  containsChars ['g', '('] text.data

/-- ContentGuardrails.validate_input. TextBlob sentiment polarity is an oracle
argument: none models a sentiment-computation failure, which the Python code
swallows (the bare except around the TextBlob call). -/
def validate_input (sentiment : Option Rat) (user_input : String) : Verdict :=
  let input_lower := lower user_input
  if forbidden_keywords.any (fun kw => containsChars kw.data input_lower) then
    { is_valid := false, reason := "inappropriate_content",
      message := "I can only help with mathematics education. Please ask a math-related question.",
      severity := "high" }
  else
    let math_score := (math_keywords.filter (fun kw => containsChars kw.data input_lower)).length
    if (pythonStrip user_input.data).length < 5 then
      { is_valid := false, reason := "too_short",
        message := "Please provide a more detailed question.",
        severity := "low" }
    else if (match sentiment with
             | some p => decide (p < -(1/2 : Rat))
             | none => false) then
      { is_valid := false, reason := "negative_tone",
        message := "Please rephrase your question in a respectful manner.",
        severity := "medium" }
    else if math_score == 0 && !(contains_numbers_or_symbols user_input) then
      { is_valid := true, reason := "low_math_relevance",
        message := "This doesn\x27t seem to be a math question. I\x27m optimized for mathematics education.",
        severity := "low", warning := some true }
    else
      { is_valid := true, reason := "valid",
        message := "Input validated successfully",
        severity := "none", math_score := some math_score }

/-- Refusal patterns scanned by ContentGuardrails.validate_output. -/
def refusal_patterns : List String :=
  ["i don\x27t know", "i cannot", "i\x27m not sure", "i don\x27t have",
   "cannot determine", "insufficient information"]

/-- Explanatory connective words scanned by ContentGuardrails.validate_output. -/
def explanation_words : List String :=
  ["because", "therefore", "thus", "hence", "since", "which means",
   "step", "first", "second", "next", "finally", "explanation"]

/-- ContentGuardrails.validate_output. -/
def validate_output (response : String) : Verdict :=
  let response_lower := lower response
  if (pythonStrip response.data).length < 20 then
    { is_valid := false, reason := "response_too_short",
      message := "Generated response is too short. Regenerating...",
      severity := "medium" }
  else if forbidden_keywords.any (fun kw => containsChars kw.data response_lower) then
    { is_valid := false, reason := "inappropriate_output",
      message := "Response contains inappropriate content.",
      severity := "high" }
  else
    let has_refusal := refusal_patterns.any (fun p => containsChars p.data response_lower)
    let has_explanation := explanation_words.any (fun w => containsChars w.data response_lower)
    let quality_score :=
      (if has_explanation then 1 else 0) +
      (if response.data.length > 100 then 1 else 0) +
      (if !has_refusal then 1 else 0)
    { is_valid := true, reason := "valid",
      message := "Output validated successfully",
      severity := "none", quality_score := some quality_score,
      has_refusal := some has_refusal, has_explanation := some has_explanation }

/-- Interrogative and imperative words scanned by ContentGuardrails.is_math_related. -/
def question_words : List String :=
  ["what", "how", "why", "when", "where", "solve", "find", "calculate", "prove"]

/-- ContentGuardrails.is_math_related: returns the is-math flag and the clamped
confidence score. -/
def is_math_related (text : String) : Bool × Rat :=
  let text_lower := lower text
  let keyword_count := (math_keywords.filter (fun kw => containsChars kw.data text_lower)).length
  let has_numbers := contains_numbers_or_symbols text
  let confidence : Rat := 0
  let confidence := if keyword_count > 0
    then confidence + ratMin ((keyword_count : Rat) * (2/10)) (6/10) else confidence
  let confidence := if has_numbers then confidence + 3/10 else confidence
  let confidence := if question_words.any (fun w => containsChars w.data text_lower)
    then confidence + 1/10 else confidence
  let is_math := decide (confidence > (3 : Rat)/10)
  (is_math, ratMin confidence 1)

/-- Word characters of the regex token class used in
WebSearchAgent.validate_answer_exists (ASCII-faithful). -/
def isWordChar (c : Char) : Bool := c.isAlphanum || c == '_'

/-- Helper for wordTokens: cur holds the characters of the token being read,
in reverse. -/
def wordTokensGo (cur : List Char) : List Char → List (List Char)
  | [] => if cur.isEmpty then [] else [cur.reverse]
  | c :: rest =>
    if isWordChar c then wordTokensGo (c :: cur) rest
    else if cur.isEmpty then wordTokensGo [] rest
    else cur.reverse :: wordTokensGo [] rest

/-- Maximal runs of word characters, as produced by the word-token regex scan
in WebSearchAgent.validate_answer_exists. -/
def wordTokens (s : List Char) : List (List Char) := wordTokensGo [] s

/-- Models the Python set built from the word tokens: a duplicate-free list.
Only cardinality and membership of the set are used downstream, so the order
of this list is irrelevant. -/
def distinctTokens (l : List (List Char)) : List (List Char) :=
  l.foldl (fun acc t => if acc.contains t then acc else t :: acc) []

/-- WebSearchAgent.validate_answer_exists: at least one result must contain,
as substrings of its combined lowercased title, snippet and content, at least
half of the distinct lowercase word tokens of the query. -/
def validate_answer_exists (query : String) (search_results : List WebResult) : Bool :=
  if search_results.isEmpty then false
  else
    let query_terms := distinctTokens (wordTokens (lower query))
    search_results.any (fun r =>
      let result_text := lower (r.title ++ " " ++ r.snippet ++ " " ++ r.content)
      let match_count := (query_terms.filter (fun t => containsChars t result_text)).length
      decide ((match_count : Rat) ≥ (query_terms.length : Rat) * (5/10)))

/-- WebSearchAgent.format_search_context. The Python dict lookups
result.get with defaults never miss on enriched results, so the fields are
used directly. -/
def format_search_context (search_results : List WebResult) : String :=
  if search_results.isEmpty then ""
  else
    String.intercalate "\n\n" (search_results.enum.map (fun p =>
      let trust_badge := if p.2.is_trusted then " [TRUSTED SOURCE]" else ""
      "Source " ++ toString (p.1 + 1) ++ trust_badge ++ ":\n" ++
      "Title: " ++ p.2.title ++ "\n" ++
      "URL: " ++ p.2.url ++ "\n" ++
      "Content: " ++ p.2.content ++ "\n"))

/-- GroqClient.generate_response user message construction (context present or
absent). -/
def build_user_message (question : String) (context : Option String) : String :=
  match context with
  | some ctx =>
    "Based on the following context from my knowledge base:\n\n" ++ ctx ++
    "\n\nPlease answer this question: " ++ question ++
    "\n\nProvide a detailed, step-by-step explanation."
  | none =>
    "I couldn\x27t find relevant information in my knowledge base for this question.\n\nQuestion: " ++
    question ++
    "\n\nPlease provide a comprehensive, step-by-step explanation using your mathematical expertise."

/-- GroqClient.generate_response: calls the chat-completion transport (an
oracle from the user message to either the generated text or a raised
exception) and maps any exception to an error-message string - the broad
except branch of the Python method. -/
def generate_response (api : String → Except String String) (question : String)
    (context : Option String) : String :=
  match api (build_user_message question context) with
  | .ok text => text
  | .error e => "Error generating response from LLM: " ++ e

/-- EnhancedRAGOrchestrator collaborator oracles and configuration. The method
bodies are the top-level functions below; the oracle fields stand for the
replaceable collaborators (vector store, web search agent, Groq transport,
TextBlob sentiment, feedback store). enable_web_search is the configuration
flag set in __init__ (default True). -/
structure Orchestrator where
  kb_search : String → Nat → Rat → List KbChunk
  web_search_math : String → WebSearchResult
  llm_api : String → Except String String
  sentiment_of : String → Option Rat
  store_refined : Int → String → String → Except String Unit
  enable_web_search : Bool := true

/-- EnhancedRAGOrchestrator.min_confidence_score. -/
def min_confidence_score : Rat := 5/10

/-- EnhancedRAGOrchestrator.web_search_threshold. -/
def web_search_threshold : Rat := 4/10

/-- Observable collaborator invocations of one answer_question run: retriever
calls with their arguments, web-search calls with the query, and generator
calls with question and context arguments. -/
structure Trace where
  kb_calls : List (String × Nat × Rat) := []
  web_calls : List String := []
  gen_calls : List (String × Option String) := []
deriving DecidableEq, Repr

/-- Response dictionary of answer_question and its terminal branches. Keys
present only on some branches are Option fields defaulting to none. -/
structure AnswerResponse where
  answer : String
  source : String
  sources : Option (List String) := none
  used_kb : Option Bool := none
  used_web : Option Bool := none
  kb_confidence : Option Rat := none
  math_relevance : Option Rat := none
  math_confidence : Option Rat := none
  input_validation : Verdict
  output_validation : Option Verdict := none
  success : Bool
  session_id : Option String := none
deriving DecidableEq, Repr

/-- Best knowledge-base score: kb_results[0].score if nonempty else 0 (the
retriever returns results in descending score order). -/
def best_score : List KbChunk → Rat
  | [] => 0
  | c :: _ => c.score

/-- Outcome of STEP 3 of answer_question: the web context string and validated
web results (both none when the step is skipped, the provider fails, or
relevance validation discards the results), plus the trace of provider calls. -/
structure WebOutcome where
  web_context : Option String := none
  web_results : Option (List WebResult) := none
  calls : List String := []
deriving DecidableEq, Repr

/-- STEP 3 of answer_question: conditional web search with relevance
validation. -/
def web_stage (o : Orchestrator) (question : String) (has_kb_context : Bool)
    (best_kb_score : Rat) : WebOutcome :=
  if o.enable_web_search && (!has_kb_context || decide (best_kb_score < web_search_threshold)) then
    let web_search_result := o.web_search_math question
    if web_search_result.success && !web_search_result.results.isEmpty then
      if validate_answer_exists question web_search_result.results then
        { web_context := some (format_search_context web_search_result.results),
          web_results := some web_search_result.results,
          calls := [question] }
      else { calls := [question] }
    else { calls := [question] }
  else {}

/-- Metadata source label of a chunk: chunk.metadata.get with default Unknown. -/
def chunk_source (c : KbChunk) : String := c.metadata_source.getD "Unknown"

/-- Deduplicated chunk source labels in first-seen order, as accumulated by the
sources loop of STEP 4 of answer_question. -/
def dedup_sources (kb_results : List KbChunk) : List String :=
  kb_results.foldl
    (fun acc c => if acc.contains (chunk_source c) then acc else acc ++ [chunk_source c]) []

/-- Models the Python two-decimal float format applied to a chunk score in the
context blocks (round half up, nonnegative scores). No claim depends on the
exact digits. -/
def fmtScore (q : Rat) : String :=
  let cents : Int := (q * 100 + 5/10).floor
  let ip := cents / 100
  let fp := (cents % 100).toNat
  toString ip ++ "." ++ (if fp < 10 then "0" else "") ++ toString fp

/-- Labeled, scored knowledge-base context blocks joined by blank lines, as
built by STEP 4 of answer_question when KB context exists. -/
def kb_context_string (kb_results : List KbChunk) : String :=
  String.intercalate "\n\n" (kb_results.enum.map (fun p =>
    "[PDF Source " ++ toString (p.1 + 1) ++ ": " ++ chunk_source p.2 ++
    " (Relevance: " ++ fmtScore p.2.score ++ ")]\n" ++ p.2.text))

/-- Python truthiness of an optional string (None and the empty string are
falsy). -/
def truthyStr : Option String → Bool
  | none => false
  | some s => !(s == "")

/-- Outcome of STEP 4 of answer_question: final context, cited sources and
source label. -/
structure ContextOutcome where
  final_context : Option String
  sources : List String
  source_type : String
deriving DecidableEq, Repr

/-- STEP 4 of answer_question: strict priority order KB, then validated web,
then no context. The web branch reads w.web_results, which is some exactly
when w.web_context is set by web_stage; the none fallback in that match is
unreachable from web_stage outputs. -/
def context_stage (kb_results : List KbChunk) (w : WebOutcome) : ContextOutcome :=
  if kb_results.length > 0 then
    { final_context := some (kb_context_string kb_results),
      sources := dedup_sources kb_results,
      source_type := "Knowledge Base (PDF)" }
  else if truthyStr w.web_context then
    { final_context := w.web_context,
      sources := (match w.web_results with
        | some wr => (wr.take 2).map (fun r => r.url)
        | none => []),
      source_type := "Web Search" }
  else
    { final_context := none, sources := [], source_type := "LLM General Knowledge" }

/-- Safety instruction appended to the question on the single regeneration. -/
def safety_suffix : String := " [Please provide a safe, educational response]"

/-- STEPS 5 and 6 of answer_question: generation, output validation and the
single conditional regeneration. Returns the final answer, the final output
verdict, and the list of generator calls made (question and context
arguments). -/
def generation_stage (api : String → Except String String) (question : String)
    (final_context : Option String) : String × Verdict × List (String × Option String) :=
  let answer := generate_response api question final_context
  let output_validation := validate_output answer
  if !output_validation.is_valid && output_validation.severity == "high" then
    let question2 := question ++ safety_suffix
    let answer2 := generate_response api question2 final_context
    (answer2, validate_output answer2, [(question, final_context), (question2, final_context)])
  else
    (answer, output_validation, [(question, final_context)])

/-- STEPS 2 through 7 of answer_question (everything after the input guard and
the math-relevance gate), with the input verdict and math confidence computed
by the caller. -/
def answer_pipeline (o : Orchestrator) (question : String) (session_id : Option String)
    (input_validation : Verdict) (confidence : Rat) : AnswerResponse × Trace :=
  let kb_results := o.kb_search question 3 min_confidence_score
  let has_kb_context : Bool := decide (kb_results.length > 0)
  let best_kb_score := best_score kb_results
  let w := web_stage o question has_kb_context best_kb_score
  let c := context_stage kb_results w
  let g := generation_stage o.llm_api question c.final_context
  ({ answer := g.1,
     source := c.source_type,
     sources := some c.sources,
     used_kb := some has_kb_context,
     used_web := some w.web_results.isSome,
     kb_confidence := some best_kb_score,
     math_relevance := some confidence,
     input_validation := input_validation,
     output_validation := some g.2.1,
     success := true,
     session_id := session_id },
   { kb_calls := [(question, 3, min_confidence_score)],
     web_calls := w.calls,
     gen_calls := g.2.2 })

/-- Message of the Math Filter terminal branch of answer_question. -/
def math_filter_message : String :=
  "I\x27m a mathematics education assistant. Please ask a math-related question, and I\x27ll be happy to help!"

/-- EnhancedRAGOrchestrator.answer_question. Returns the response dictionary
together with the trace of collaborator invocations. -/
def answer_question (o : Orchestrator) (question : String)
    (session_id : Option String) : AnswerResponse × Trace :=
  let input_validation := validate_input (o.sentiment_of question) question
  if !input_validation.is_valid && input_validation.severity == "high" then
    ({ answer := input_validation.message,
       source := "Guardrails Blocked",
       input_validation := input_validation,
       success := false }, {})
  else
    let m := is_math_related question
    if !m.1 && decide (m.2 < (3 : Rat)/10) then
      ({ answer := math_filter_message,
         source := "Math Filter",
         input_validation := input_validation,
         success := false,
         math_confidence := some m.2 }, {})
    else
      answer_pipeline o question session_id input_validation m.2

/-- The input-guard hard-stop condition of answer_question, as a predicate. -/
def input_blocked (o : Orchestrator) (q : String) : Bool :=
  let iv := validate_input (o.sentiment_of q) q
  !iv.is_valid && iv.severity == "high"

/-- The math-relevance soft-gate condition of answer_question, as a
predicate. -/
def math_filtered (q : String) : Bool :=
  let m := is_math_related q
  !m.1 && decide (m.2 < (3 : Rat)/10)

/-- Return dictionary of EnhancedRAGOrchestrator.refine_response. -/
structure RefineResult where
  refined_answer : String
  validation : Verdict
  success : Bool
deriving DecidableEq, Repr

/-- The composite refinement prompt built by refine_response. -/
def refinement_prompt (original_question original_response user_feedback : String) : String :=
  "\nOriginal Question: " ++ original_question ++
  "\n\nOriginal Answer: " ++ original_response ++
  "\n\nUser Feedback: " ++ user_feedback ++
  "\n\nPlease provide an improved answer that addresses the user\x27s feedback.\n" ++
  "Make sure to:\n" ++
  "1. Address the specific concerns mentioned\n" ++
  "2. Provide more clarity where requested\n" ++
  "3. Include additional examples if needed\n" ++
  "4. Maintain mathematical accuracy\n"

/-- EnhancedRAGOrchestrator.refine_response. The store_refined call (the
feedback-store insert, FeedbackSystem.store_refined_response) is not wrapped
in any exception handler in the source, so a raised persistence error
propagates out of refine_response; this is modelled by the Except error
branch. The Python truthiness test if feedback_id means none and 0 both skip
persistence. -/
def refine_response (o : Orchestrator) (original_question original_response user_feedback : String)
    (feedback_id : Option Int) : Except String RefineResult :=
  let refined_answer := generate_response o.llm_api
    (refinement_prompt original_question original_response user_feedback) none
  let validation := validate_output refined_answer
  match feedback_id with
  | some fid =>
    if fid ≠ 0 then
      match o.store_refined fid refined_answer user_feedback with
      | .ok _ => .ok { refined_answer := refined_answer, validation := validation, success := true }
      | .error e => .error e
    else .ok { refined_answer := refined_answer, validation := validation, success := true }
  | none => .ok { refined_answer := refined_answer, validation := validation, success := true }

/-- Concrete well-formed generator output used by witness runs: long enough,
no denylisted term, no refusal phrase. -/
def sample_answer : String :=
  "The derivative of x^2 is 2x because of the power rule."

/-- Concrete generator output that violates the output guardrails (contains a
denylisted term and is long enough to pass the length check). -/
def harmful_answer : String :=
  "You should kill the process immediately without mercy."

/-- Baseline concrete orchestrator for witness runs: empty knowledge base,
failing web provider, generator returning sample_answer, neutral sentiment,
succeeding feedback store. -/
def baseO : Orchestrator :=
  { kb_search := fun _ _ _ => [],
    web_search_math := fun _ => { success := false, results := [], message := "No search results found" },
    llm_api := fun _ => .ok sample_answer,
    sentiment_of := fun _ => none,
    store_refined := fun _ _ _ => .ok () }

/-- Knowledge-base chunk scored 0.39 (just below the web-fallback threshold). -/
def kbChunk39 : KbChunk :=
  { text := "A quadratic equation has degree two.", metadata_source := some "algebra.pdf", score := 39/100 }

/-- Knowledge-base chunk scored 0.40 (at the web-fallback threshold). -/
def kbChunk40 : KbChunk :=
  { text := "A quadratic equation has degree two.", metadata_source := some "algebra.pdf", score := 40/100 }

/-- Knowledge-base chunk scored 0.35, same source label as kbChunk39. -/
def kbChunk35 : KbChunk :=
  { text := "Completing the square solves quadratics.", metadata_source := some "algebra.pdf", score := 35/100 }

/-- Knowledge-base chunk scored 0.80, satisfying the retriever score
contract. -/
def kbChunk80 : KbChunk :=
  { text := "Addition of natural numbers is commutative.", metadata_source := some "arithmetic.pdf", score := 8/10 }

/-- Orchestrator whose retriever returns one chunk scored 0.39. -/
def o39 : Orchestrator := { baseO with kb_search := fun _ _ _ => [kbChunk39] }

/-- Orchestrator whose retriever returns one chunk scored 0.40. -/
def o40 : Orchestrator := { baseO with kb_search := fun _ _ _ => [kbChunk40] }

/-- Orchestrator whose retriever returns one chunk scored 0.80. -/
def o80 : Orchestrator := { baseO with kb_search := fun _ _ _ => [kbChunk80] }

/-- A web result whose text shares the query terms of the witness question. -/
def webResultSolve : WebResult :=
  { title := "How to solve equations",
    url := "https://mathsite.example/solve",
    snippet := "step by step solving 2+2",
    content := "To solve 2+2 you add the numbers.",
    is_trusted := true }

/-- Orchestrator with weak KB results (0.39 and 0.35) and a succeeding,
relevance-validated web provider: both evidence tiers are available. -/
def oBoth : Orchestrator :=
  { baseO with
    kb_search := fun _ _ _ => [kbChunk39, kbChunk35],
    web_search_math := fun _ =>
      { success := true, results := [webResultSolve], message := "Found 1 relevant sources" } }

/-- Orchestrator whose generator always produces the guardrail-violating
harmful_answer. -/
def oHarm : Orchestrator := { baseO with llm_api := fun _ => .ok harmful_answer }

/-- Orchestrator whose generator transport always raises. -/
def oFail : Orchestrator := { baseO with llm_api := fun _ => .error "boom" }

/-- Orchestrator whose feedback store always raises on persistence. -/
def oStoreFail : Orchestrator := { baseO with store_refined := fun _ _ _ => .error "disk full" }

lemma ratMin_ge {c a b : Rat} (ha : c ≤ a) (hb : c ≤ b) : c ≤ ratMin a b := by
  unfold ratMin; split <;> assumption

lemma ratMin_nonneg {a b : Rat} (ha : 0 ≤ a) (hb : 0 ≤ b) : 0 ≤ ratMin a b :=
  ratMin_ge ha hb

/-- The input-guard hard stop: when the blocking condition holds,
answer_question returns the terminal Guardrails Blocked record and an empty
trace. -/
lemma answer_question_blocked (o : Orchestrator) (q : String) (sid : Option String)
    (hb : input_blocked o q = true) :
    answer_question o q sid =
      ({ answer := (validate_input (o.sentiment_of q) q).message,
         source := "Guardrails Blocked",
         input_validation := validate_input (o.sentiment_of q) q,
         success := false }, {}) := by
  have hb' : (!(validate_input (o.sentiment_of q) q).is_valid &&
      (validate_input (o.sentiment_of q) q).severity == "high") = true := hb
  simp only [answer_question, hb', if_true]

/-- When neither the input guard nor the math-relevance gate fires,
answer_question runs the main pipeline. -/
lemma answer_question_eq_pipeline (o : Orchestrator) (q : String) (sid : Option String)
    (h1 : input_blocked o q = false) (h2 : math_filtered q = false) :
    answer_question o q sid =
      answer_pipeline o q sid (validate_input (o.sentiment_of q) q) (is_math_related q).2 := by
  have h1' : (!(validate_input (o.sentiment_of q) q).is_valid &&
      (validate_input (o.sentiment_of q) q).severity == "high") = false := h1
  have h2' : (!(is_math_related q).1 && decide ((is_math_related q).2 < (3 : Rat)/10)) = false := h2
  simp only [answer_question, h1', h2', Bool.false_eq_true, if_false]

/-- Trace of the conditional web-search step, as a single conditional. -/
lemma web_stage_calls (o : Orchestrator) (q : String) (hkb : Bool) (best : Rat) :
    (web_stage o q hkb best).calls =
      if o.enable_web_search && (!hkb || decide (best < web_search_threshold)) then [q] else [] := by
  by_cases h : (o.enable_web_search && (!hkb || decide (best < web_search_threshold))) = true
  · simp only [web_stage, h, if_true]
    split
    · split <;> rfl
    · rfl
  · simp [web_stage, h]

/-- Generator calls of the generation step: one call, plus a second call with
the safety suffix and the same context exactly when the first verdict is
invalid with high severity. -/
lemma generation_stage_gen_calls (api : String → Except String String) (q : String)
    (ctx : Option String) :
    (generation_stage api q ctx).2.2 =
      (let ov := validate_output (generate_response api q ctx)
       if !ov.is_valid && ov.severity == "high"
       then [(q, ctx), (q ++ safety_suffix, ctx)] else [(q, ctx)]) := by
  by_cases h : (!(validate_output (generate_response api q ctx)).is_valid &&
      (validate_output (generate_response api q ctx)).severity == "high") = true
  · simp only [generation_stage, h, if_true]
  · simp only [generation_stage, h, Bool.false_eq_true, if_false]

lemma generation_stage_len (api : String → Except String String) (q : String)
    (ctx : Option String) : (generation_stage api q ctx).2.2.length ≤ 2 := by
  rw [generation_stage_gen_calls]
  dsimp only
  split <;> simp

lemma generation_stage_ne_nil (api : String → Except String String) (q : String)
    (ctx : Option String) : (generation_stage api q ctx).2.2 ≠ [] := by
  rw [generation_stage_gen_calls]
  dsimp only
  split <;> simp

lemma generation_stage_ctx (api : String → Except String String) (q : String)
    (ctx : Option String) : ∀ p ∈ (generation_stage api q ctx).2.2, p.2 = ctx := by
  rw [generation_stage_gen_calls]
  dsimp only
  split <;> simp

/-- When the generator transport always raises e, both generation attempts
yield the mapped error-message string. -/
lemma generation_stage_error (api : String → Except String String) (e : String)
    (hapi : api = fun _ => .error e) (q : String) (ctx : Option String) :
    (generation_stage api q ctx).1 = "Error generating response from LLM: " ++ e := by
  subst hapi
  simp only [generation_stage, generate_response]
  split <;> rfl

/-- Context assembly with nonempty KB results always chooses the
knowledge-base branch. -/
lemma context_stage_kb (kb : List KbChunk) (w : WebOutcome) (h : kb ≠ []) :
    context_stage kb w =
      { final_context := some (kb_context_string kb),
        sources := dedup_sources kb,
        source_type := "Knowledge Base (PDF)" } := by
  unfold context_stage
  rw [if_pos (List.length_pos.mpr h)]

/-- Context assembly never produces the Math Filter source label. -/
lemma context_stage_source (kb : List KbChunk) (w : WebOutcome) :
    (context_stage kb w).source_type ≠ "Math Filter" := by
  unfold context_stage
  split
  · simp
  · split <;> simp

/-- On a run that passes both guards, the web provider is called exactly when
web search is enabled and the KB results are empty or the best KB score is
below the fallback threshold. -/
lemma aq_web_calls (o : Orchestrator) (q : String) (sid : Option String)
    (h1 : input_blocked o q = false) (h2 : math_filtered q = false) :
    (answer_question o q sid).2.web_calls =
      if o.enable_web_search = true ∧
         (o.kb_search q 3 min_confidence_score = [] ∨
          best_score (o.kb_search q 3 min_confidence_score) < web_search_threshold)
      then [q] else [] := by
  rw [answer_question_eq_pipeline o q sid h1 h2]
  have hproj : (answer_pipeline o q sid (validate_input (o.sentiment_of q) q)
      (is_math_related q).2).2.web_calls =
      (web_stage o q (decide ((o.kb_search q 3 min_confidence_score).length > 0))
        (best_score (o.kb_search q 3 min_confidence_score))).calls := rfl
  rw [hproj, web_stage_calls]
  refine if_congr ?_ rfl rfl
  simp only [Bool.and_eq_true, Bool.or_eq_true, Bool.not_eq_true', decide_eq_true_eq,
    decide_eq_false_iff_not, not_lt, Nat.le_zero, List.length_eq_zero]

/-- C1: for every input containing a denylisted forbidden-content term as a
case-insensitive substring, validate_input returns is_valid=false with
severity high, and answer_question returns the terminal Guardrails Blocked
record with success=false and an empty trace: neither the retriever, nor the
web provider, nor the generator is called. -/
theorem C1_forbidden_term_hard_stop (o : Orchestrator) (q : String) (sid : Option String)
    (h : ∃ kw ∈ forbidden_keywords, containsChars kw.data (lower q) = true) :
    (validate_input (o.sentiment_of q) q).is_valid = false ∧
    (validate_input (o.sentiment_of q) q).severity = "high" ∧
    (answer_question o q sid).1.source = "Guardrails Blocked" ∧
    (answer_question o q sid).1.success = false ∧
    (answer_question o q sid).2 = {} := by
  have hany : (forbidden_keywords.any (fun kw => containsChars kw.data (lower q))) = true :=
    List.any_eq_true.mpr h
  have hv : validate_input (o.sentiment_of q) q =
      { is_valid := false, reason := "inappropriate_content",
        message := "I can only help with mathematics education. Please ask a math-related question.",
        severity := "high" } := by
    simp only [validate_input, hany, if_true]
  have hb : input_blocked o q = true := by
    simp [input_blocked, hv]
  refine ⟨by rw [hv], by rw [hv], ?_, ?_, ?_⟩ <;>
    rw [answer_question_blocked o q sid hb]

theorem C1_forbidden_term_hard_stop_witness :
    containsChars "bomb".data (lower "How do I build a bomb at home") = true ∧
    (answer_question baseO "How do I build a bomb at home" none).1.source = "Guardrails Blocked" ∧
    (answer_question baseO "How do I build a bomb at home" none).1.success = false ∧
    (answer_question baseO "How do I build a bomb at home" none).2 = {} :=
  ⟨by decide,
   (C1_forbidden_term_hard_stop baseO "How do I build a bomb at home" none (by decide)).2.2.1,
   (C1_forbidden_term_hard_stop baseO "How do I build a bomb at home" none (by decide)).2.2.2.1,
   (C1_forbidden_term_hard_stop baseO "How do I build a bomb at home" none (by decide)).2.2.2.2⟩

/-- C2: on a run that passes both input gates, the web provider is invoked
exactly when web search is enabled and the KB result list is empty or the
best KB score is strictly below 0.4; the 0.39 and 0.40 instances are
exercised by the witness. -/
theorem C2_web_fallback_trigger (o : Orchestrator) (q : String) (sid : Option String)
    (h1 : input_blocked o q = false) (h2 : math_filtered q = false) :
    (answer_question o q sid).2.web_calls =
      if o.enable_web_search = true ∧
         (o.kb_search q 3 min_confidence_score = [] ∨
          best_score (o.kb_search q 3 min_confidence_score) < web_search_threshold)
      then [q] else [] :=
  aq_web_calls o q sid h1 h2

unseal Rat.add Rat.mul Rat.inv Rat.sub in
theorem C2_web_fallback_trigger_witness :
    input_blocked o39 "Solve 2+2" = false ∧ math_filtered "Solve 2+2" = false ∧
    best_score (o39.kb_search "Solve 2+2" 3 min_confidence_score) = 39/100 ∧
    best_score (o40.kb_search "Solve 2+2" 3 min_confidence_score) = 40/100 ∧
    (answer_question o39 "Solve 2+2" none).2.web_calls = ["Solve 2+2"] ∧
    (answer_question o40 "Solve 2+2" none).2.web_calls = [] :=
  ⟨by decide, by decide, by decide, by decide,
   (C2_web_fallback_trigger o39 "Solve 2+2" none (by decide) (by decide)).trans (by decide),
   (C2_web_fallback_trigger o40 "Solve 2+2" none (by decide) (by decide)).trans (by decide)⟩

/-- C3: on a run that passes both input gates, has nonempty KB results and
also has successful, relevance-validated web results, the returned record
cites the knowledge base: source is Knowledge Base (PDF) (never Web Search),
sources is the deduplicated list of passage source labels in first-seen
order, and every generator call receives the KB-passages context. -/
theorem C3_kb_priority (o : Orchestrator) (q : String) (sid : Option String)
    (h1 : input_blocked o q = false) (h2 : math_filtered q = false)
    (hkb : o.kb_search q 3 min_confidence_score ≠ [])
    (_hweb : (o.web_search_math q).success = true ∧ (o.web_search_math q).results ≠ [] ∧
            validate_answer_exists q (o.web_search_math q).results = true) :
    (answer_question o q sid).1.source = "Knowledge Base (PDF)" ∧
    (answer_question o q sid).1.sources =
      some (dedup_sources (o.kb_search q 3 min_confidence_score)) ∧
    ∀ p ∈ (answer_question o q sid).2.gen_calls,
      p.2 = some (kb_context_string (o.kb_search q 3 min_confidence_score)) := by
  rw [answer_question_eq_pipeline o q sid h1 h2]
  have hc : context_stage (o.kb_search q 3 min_confidence_score)
      (web_stage o q (decide ((o.kb_search q 3 min_confidence_score).length > 0))
        (best_score (o.kb_search q 3 min_confidence_score))) =
      { final_context := some (kb_context_string (o.kb_search q 3 min_confidence_score)),
        sources := dedup_sources (o.kb_search q 3 min_confidence_score),
        source_type := "Knowledge Base (PDF)" } :=
    context_stage_kb _ _ hkb
  refine ⟨?_, ?_, ?_⟩
  · show (context_stage _ _).source_type = _
    rw [hc]
  · show some (context_stage _ _).sources = _
    rw [hc]
  · show ∀ p ∈ (generation_stage o.llm_api q (context_stage _ _).final_context).2.2, _
    rw [hc]
    exact generation_stage_ctx o.llm_api q _

unseal Rat.add Rat.mul Rat.inv Rat.sub in
theorem C3_kb_priority_witness :
    input_blocked oBoth "Solve 2+2" = false ∧ math_filtered "Solve 2+2" = false ∧
    oBoth.kb_search "Solve 2+2" 3 min_confidence_score = [kbChunk39, kbChunk35] ∧
    (oBoth.web_search_math "Solve 2+2").success = true ∧
    validate_answer_exists "Solve 2+2" (oBoth.web_search_math "Solve 2+2").results = true ∧
    (answer_question oBoth "Solve 2+2" none).1.source = "Knowledge Base (PDF)" ∧
    (answer_question oBoth "Solve 2+2" none).1.sources = some ["algebra.pdf"] :=
  ⟨by decide, by decide, by decide, by decide, by decide,
   (C3_kb_priority oBoth "Solve 2+2" none (by decide) (by decide) (by decide)
      ⟨by decide, by decide, by decide⟩).1,
   ((C3_kb_priority oBoth "Solve 2+2" none (by decide) (by decide) (by decide)
      ⟨by decide, by decide, by decide⟩).2.1).trans (by decide)⟩

/-- C4: on a run that passes both input gates, the generator is called at most
twice; the trace of generator calls is a single call with the assembled
context, extended by exactly one regeneration call with the safety suffix and
the same context precisely when the first output verdict is invalid with high
severity. No third call exists in any case. -/
theorem C4_single_regeneration (o : Orchestrator) (q : String) (sid : Option String)
    (h1 : input_blocked o q = false) (h2 : math_filtered q = false) :
    (answer_question o q sid).2.gen_calls.length ≤ 2 ∧
    (answer_question o q sid).2.gen_calls =
      (let ctx := (context_stage (o.kb_search q 3 min_confidence_score)
          (web_stage o q (decide ((o.kb_search q 3 min_confidence_score).length > 0))
            (best_score (o.kb_search q 3 min_confidence_score)))).final_context
       let ov := validate_output (generate_response o.llm_api q ctx)
       if !ov.is_valid && ov.severity == "high"
       then [(q, ctx), (q ++ safety_suffix, ctx)] else [(q, ctx)]) := by
  rw [answer_question_eq_pipeline o q sid h1 h2]
  exact ⟨generation_stage_len o.llm_api q _, generation_stage_gen_calls o.llm_api q _⟩

unseal Rat.add Rat.mul Rat.inv Rat.sub in
theorem C4_single_regeneration_witness :
    input_blocked oHarm "Solve 2+2" = false ∧ math_filtered "Solve 2+2" = false ∧
    (validate_output harmful_answer).is_valid = false ∧
    (validate_output harmful_answer).severity = "high" ∧
    (answer_question oHarm "Solve 2+2" none).2.gen_calls =
      [("Solve 2+2", none), ("Solve 2+2" ++ safety_suffix, none)] :=
  ⟨by decide, by decide, by decide, by decide,
   ((C4_single_regeneration oHarm "Solve 2+2" none (by decide) (by decide)).2).trans (by decide)⟩

unseal Rat.add Rat.mul Rat.inv Rat.sub in
/-- C5 counterexample: with a generator transport that raises, answer_question
returns success=true with the mapped error string as the answer - not a
record with success=false as the claim states. -/
theorem C5_generation_failure_counterexample :
    (answer_question oFail "Solve 2+2" none).1.success = true ∧
    (answer_question oFail "Solve 2+2" none).1.answer =
      "Error generating response from LLM: boom" := by decide

/-- C5 as amended: when the generator transport always raises e, on a run that
passes both input gates answer_question still returns a well-formed record
(no exception propagates), whose answer is the human-readable error message
produced inside generate_response, but whose success flag is true. -/
theorem C5_generation_failure_amended (o : Orchestrator) (q : String) (sid : Option String)
    (e : String) (hapi : o.llm_api = fun _ => .error e)
    (h1 : input_blocked o q = false) (h2 : math_filtered q = false) :
    (answer_question o q sid).1.success = true ∧
    (answer_question o q sid).1.answer = "Error generating response from LLM: " ++ e := by
  rw [answer_question_eq_pipeline o q sid h1 h2]
  exact ⟨rfl, generation_stage_error o.llm_api e hapi q _⟩

unseal Rat.add Rat.mul Rat.inv Rat.sub in
theorem C5_generation_failure_amended_witness :
    oFail.llm_api = (fun _ => .error "boom") ∧
    input_blocked oFail "Solve 2+2" = false ∧ math_filtered "Solve 2+2" = false ∧
    (answer_question oFail "Solve 2+2" none).1.success = true ∧
    (answer_question oFail "Solve 2+2" none).1.answer =
      "Error generating response from LLM: " ++ "boom" :=
  ⟨rfl, by decide, by decide,
   (C5_generation_failure_amended oFail "Solve 2+2" none "boom" rfl (by decide) (by decide)).1,
   (C5_generation_failure_amended oFail "Solve 2+2" none "boom" rfl (by decide) (by decide)).2⟩

/-- C6 counterexample: with a supplied nonzero feedbackId and a feedback store
whose persistence raises, refine_response propagates the store error instead
of returning the refined answer. -/
theorem C6_persistence_failure_counterexample :
    refine_response oStoreFail "What is 2+2?" "4" "Explain more." (some 7) =
      Except.error "disk full" := rfl

/-- C6 as amended: the refined answer with success=true is returned whenever
the persistence step succeeds (and also when no truthy feedbackId is
supplied); a raised persistence error, however, propagates out of
refine_response and does prevent the refined answer from being returned, as
the counterexample shows. -/
theorem C6_persistence_failure_amended (o : Orchestrator)
    (oq orr fb : String) (fid : Option Int)
    (hstore : o.store_refined = fun _ _ _ => .ok ()) :
    refine_response o oq orr fb fid =
      .ok { refined_answer := generate_response o.llm_api (refinement_prompt oq orr fb) none,
            validation := validate_output (generate_response o.llm_api (refinement_prompt oq orr fb) none),
            success := true } := by
  unfold refine_response
  cases fid with
  | none => rfl
  | some i =>
    simp only [hstore]
    split <;> rfl

theorem C6_persistence_failure_amended_witness :
    baseO.store_refined = (fun _ _ _ => .ok ()) ∧
    refine_response baseO "What is 2+2?" "4" "Explain more." (some 7) =
      .ok { refined_answer := sample_answer,
            validation := validate_output sample_answer,
            success := true } :=
  ⟨rfl, C6_persistence_failure_amended baseO "What is 2+2?" "4" "Explain more." (some 7) rfl⟩

unseal Rat.add Rat.mul Rat.inv Rat.sub in
/-- C7 counterexample: for the one-character question y, validate_input does
reject with too_short at low severity, but answer_question does not stop: it
proceeds through retrieval and generation and returns success=true. -/
theorem C7_short_question_counterexample :
    (validate_input none "y").reason = "too_short" ∧
    (validate_input none "y").severity = "low" ∧
    (answer_question baseO "y" none).1.success = true ∧
    (answer_question baseO "y" none).2.kb_calls = [("y", 3, min_confidence_score)] ∧
    (answer_question baseO "y" none).2.gen_calls ≠ [] := by decide

unseal Rat.add Rat.mul Rat.inv Rat.sub in
/-- C7 as amended: validate_input rejects the question y with
reasonCode too_short and severity low, but the orchestrator blocks only on
severity high, and y matches the single-letter-variable pattern so the math
confidence is exactly 0.3, which does not satisfy the strict lower gate:
answer_question therefore always proceeds through retrieval and generation
and returns success=true, for every collaborator configuration. -/
theorem C7_short_question_amended :
    (∀ s : Option Rat, validate_input s "y" =
      { is_valid := false, reason := "too_short",
        message := "Please provide a more detailed question.",
        severity := "low" }) ∧
    ∀ (o : Orchestrator) (sid : Option String),
      (answer_question o "y" sid).2.kb_calls = [("y", 3, min_confidence_score)] ∧
      (answer_question o "y" sid).2.gen_calls ≠ [] ∧
      (answer_question o "y" sid).1.success = true := by
  constructor
  · intro s; rfl
  · intro o sid
    have hb : input_blocked o "y" = false := rfl
    have hm : math_filtered "y" = false := by decide
    rw [answer_question_eq_pipeline o "y" sid hb hm]
    exact ⟨rfl, generation_stage_ne_nil _ _ _, rfl⟩

/-- C8: for every string whose trimmed length is strictly below 20,
validate_output rejects with reasonCode response_too_short at medium
severity, regardless of the content of the string. -/
theorem C8_short_output_rejected (s : String)
    (h : (pythonStrip s.data).length < 20) :
    validate_output s =
      { is_valid := false, reason := "response_too_short",
        message := "Generated response is too short. Regenerating...",
        severity := "medium" } := by
  simp only [validate_output, if_pos h]

theorem C8_short_output_rejected_witness :
    (pythonStrip "  kill 2 + 2  ".data).length < 20 ∧
    validate_output "  kill 2 + 2  " =
      { is_valid := false, reason := "response_too_short",
        message := "Generated response is too short. Regenerating...",
        severity := "medium" } :=
  ⟨by decide, C8_short_output_rejected "  kill 2 + 2  " (by decide)⟩

/-- C9: under the retriever contract that every returned score is at least the
passed threshold 0.5, the weak-score disjunct of the web-fallback trigger is
vacuous, so on a run that passes both input gates the web provider is called
exactly when web search is enabled and the KB result list is empty. -/
theorem C9_contract_collapses_trigger (o : Orchestrator) (q : String) (sid : Option String)
    (h1 : input_blocked o q = false) (h2 : math_filtered q = false)
    (hc : ∀ c ∈ o.kb_search q 3 min_confidence_score, min_confidence_score ≤ c.score) :
    (answer_question o q sid).2.web_calls =
      if o.enable_web_search = true ∧ o.kb_search q 3 min_confidence_score = []
      then [q] else [] := by
  rw [aq_web_calls o q sid h1 h2]
  refine if_congr ⟨?_, ?_⟩ rfl rfl
  · rintro ⟨he, hd⟩
    refine ⟨he, ?_⟩
    rcases hd with hemp | hlt
    · exact hemp
    · cases hkb : o.kb_search q 3 min_confidence_score with
      | nil => rfl
      | cons c rest =>
        exfalso
        have hcge : min_confidence_score ≤ c.score := hc c (by rw [hkb]; exact List.mem_cons_self c rest)
        rw [hkb] at hlt
        have hlt' : c.score < web_search_threshold := hlt
        have : min_confidence_score < web_search_threshold := lt_of_le_of_lt hcge hlt'
        norm_num [min_confidence_score, web_search_threshold] at this
  · rintro ⟨he, hemp⟩
    exact ⟨he, Or.inl hemp⟩

unseal Rat.add Rat.mul Rat.inv Rat.sub in
theorem C9_contract_collapses_trigger_witness :
    input_blocked o80 "Solve 2+2" = false ∧ math_filtered "Solve 2+2" = false ∧
    o80.kb_search "Solve 2+2" 3 min_confidence_score = [kbChunk80] ∧
    min_confidence_score ≤ kbChunk80.score ∧
    (answer_question o80 "Solve 2+2" none).2.web_calls = [] :=
  ⟨by decide, by decide, by decide, by decide,
   (C9_contract_collapses_trigger o80 "Solve 2+2" none (by decide) (by decide)
      (by decide)).trans (by decide)⟩

lemma ratMin_keyword_nonneg (n : Nat) : (0 : Rat) ≤ ratMin ((n : Rat) * (2/10)) (6/10) :=
  ratMin_nonneg (by positivity) (by norm_num)

/-- C10: every question containing a digit, a math symbol, one of the letters
x, y, z, n, or the substring f( or g( makes the numeric-or-symbolic pattern
check true, hence is_math_related returns confidence at least 0.3, and the
Math Filter terminal branch of answer_question (which requires confidence
strictly below 0.3) is unreachable for such inputs. -/
theorem C10_pattern_precludes_math_filter (q : String)
    (h : q.data.any (fun c => c.isDigit) = true ∨
         q.data.any (fun c => math_symbol_chars.contains c) = true ∨
         q.data.any (fun c => variable_chars.contains c) = true ∨
         containsChars ['f', '('] q.data = true ∨
         containsChars ['g', '('] q.data = true) :
    contains_numbers_or_symbols q = true ∧
    (3 : Rat)/10 ≤ (is_math_related q).2 ∧
    ∀ (o : Orchestrator) (sid : Option String),
      (answer_question o q sid).1.source ≠ "Math Filter" := by
  have hnum : contains_numbers_or_symbols q = true := by
    rcases h with h | h | h | h | h <;>
      simp only [contains_numbers_or_symbols, h, Bool.or_true, Bool.true_or]
  have hconf : (3 : Rat)/10 ≤ (is_math_related q).2 := by
    simp only [is_math_related, hnum, if_true]
    generalize ((math_keywords.filter fun kw => containsChars kw.data (lower q)).length) = k
    have hm := ratMin_keyword_nonneg k
    refine ratMin_ge ?_ (by norm_num)
    split <;> split <;> linarith
  refine ⟨hnum, hconf, ?_⟩
  intro o sid
  by_cases hb : input_blocked o q = true
  · rw [answer_question_blocked o q sid hb]
    simp
  · have hb' : input_blocked o q = false := Bool.eq_false_iff.mpr hb
    have hm : math_filtered q = false := by
      unfold math_filtered
      have hd : decide ((is_math_related q).2 < (3 : Rat)/10) = false :=
        decide_eq_false (not_lt.mpr hconf)
      simp [hd]
    rw [answer_question_eq_pipeline o q sid hb' hm]
    exact context_stage_source _ _

unseal Rat.add Rat.mul Rat.inv Rat.sub in
theorem C10_pattern_precludes_math_filter_witness :
    "what is 7 times 8".data.any (fun c => c.isDigit) = true ∧
    contains_numbers_or_symbols "what is 7 times 8" = true ∧
    (answer_question baseO "what is 7 times 8" none).1.source ≠ "Math Filter" :=
  ⟨by decide,
   (C10_pattern_precludes_math_filter "what is 7 times 8" (Or.inl (by decide))).1,
   (C10_pattern_precludes_math_filter "what is 7 times 8" (Or.inl (by decide))).2.2 baseO none⟩
